import Mathlib

/-
Shallow embedding of the request-lifecycle core of watson-framework
(src/watson/framework/applications.py).

Modelling choices:

* External collaborators (the event dispatcher, the container, the router,
  the listeners) are abstracted into an `Env` of oracle outcomes: for each
  dispatch point the environment says what the trigger's aggregate
  `first()` value is, or which exception the trigger raises.  Repeated
  dispatch points (RENDER_VIEW triggers, EXCEPTION triggers, fallback
  render calls) are indexed by how many such calls happened before, the
  index being read off the event trace.
* Python exceptions are values of `Exc`; `Exc.app` models
  `isinstance(e, ApplicationError)`, `Exc.status_code` models presence or
  absence of a `status_code` attribute.
* Python locals that may be referenced before assignment (`response`,
  `view_model` in `Http.run`) are modelled as `Option`-typed locals where
  `none` means "unbound"; reading an unbound local raises
  `UnboundLocalError`.
* `Http.handle_exception` is recursive with no structural bound, so the
  embedding takes a fuel argument; `Outcome.fuelOut` marks a computation
  that was still recursing when the fuel ran out.
* Every event trigger appends an item to a trace; direct invocation of the
  fallback render listener (render with `with_dispatcher=False`) is
  recorded as a distinct trace item since it does not go through the
  dispatcher.
-/

namespace WatsonFw

/-- HTTP response object; only the status code matters to the core
pipeline (`Response(status_code)` in `handle_exception`, the response
delivered back at the end of `run`). -/
structure Response where
  status_code : Nat
deriving DecidableEq, Repr

/-- Python-level values flowing through the pipeline: `None`, a
`Response`, a controller object (carrying a `.response` attribute, as
stored by dispatch listeners under `controller_class`), or an opaque
object with a given truthiness. -/
inductive Value where
  | vnone
  | vresponse (r : Response)
  | vcontroller (resp : Response)
  | vobj (tag : String) (truthy : Bool)
deriving DecidableEq, Repr

/-- Python truthiness of a value (`if route_match:`). -/
def Value.truthy : Value → Bool
  | .vnone => false
  | .vobj _ t => t
  | _ => true

/-- Models `isinstance(view_model, Response)`. -/
def Value.isResponse : Value → Bool
  | .vresponse _ => true
  | _ => false

/-- Python exception object. `app` models `isinstance(exc,
ApplicationError)`; `status_code` models the optional `status_code`
attribute; `tag` identifies the exception. -/
structure Exc where
  app : Bool
  status_code : Option Nat
  tag : String
deriving DecidableEq, Repr

/-- ApplicationError carrying an HTTP status code. -/
def appError (s : Nat) : Exc := ⟨true, some s, "ApplicationError"⟩

/-- KeyError raised by `dispatch_event.params['controller_class']` when no
listener stored that key. -/
def keyErrorControllerClass : Exc := ⟨false, none, "KeyError: controller_class"⟩

/-- UnboundLocalError raised by reading `view_model` in `run` when no
branch ever assigned it. -/
def unboundViewModel : Exc := ⟨false, none, "UnboundLocalError: view_model"⟩

/-- UnboundLocalError raised by reading `response` when no branch ever
assigned it. -/
def unboundResponse : Exc := ⟨false, none, "UnboundLocalError: response"⟩

/-- AttributeError raised by `kwargs['exception'].status_code` when the
exception object has no such attribute. -/
def attrErrorStatusCode : Exc := ⟨false, none, "AttributeError: status_code"⟩

/-- AttributeError raised by `params['controller_class'].response` when
the stored value has no `response` attribute. -/
def attrErrorResponse : Exc := ⟨false, none, "AttributeError: response"⟩

/-- Models reading the `.response` attribute
(`params['controller_class'].response`). -/
def Value.responseAttr : Value → Except Exc Response
  | .vcontroller r => .ok r
  | _ => .error attrErrorResponse

/-- Lifecycle event names (watson.framework.events). -/
inductive EvName where
  | INIT
  | ROUTE_MATCH
  | DISPATCH_EXECUTE
  | RENDER_VIEW
  | EXCEPTION
  | COMPLETE
deriving DecidableEq, Repr

/-- One observable step of the pipeline: a dispatcher trigger (for
EXCEPTION triggers the `exception` param is recorded), or a direct call of
the fallback render listener (render with `with_dispatcher=False`). -/
inductive TraceItem where
  | trigger (ev : EvName) (exc : Option Exc)
  | fallbackRender
deriving DecidableEq, Repr

/-- Number of dispatcher triggers of a given event in a trace. -/
def countTrig (ev : EvName) : List TraceItem → Nat
  | [] => 0
  | .trigger e _ :: rest => (if e = ev then 1 else 0) + countTrig ev rest
  | .fallbackRender :: rest => countTrig ev rest

/-- Number of direct fallback-render calls in a trace. -/
def countFb : List TraceItem → Nat
  | [] => 0
  | .fallbackRender :: rest => 1 + countFb rest
  | .trigger _ _ :: rest => countFb rest

/-- Result of a (possibly fuel-limited) pipeline computation, together
with the trace of events observed so far.  `exn` is an escaping Python
exception; `fuelOut` marks exhausted fuel (the Python original would still
be recursing). -/
inductive Outcome (α : Type) where
  | ok (a : α) (tr : List TraceItem)
  | exn (e : Exc) (tr : List TraceItem)
  | fuelOut (tr : List TraceItem)
deriving DecidableEq, Repr

/-- Trace component of an outcome. -/
def Outcome.trace {α : Type} : Outcome α → List TraceItem
  | .ok _ tr => tr
  | .exn _ tr => tr
  | .fuelOut tr => tr

/-- True when the computation ended in an escaping exception. -/
def Outcome.isExn {α : Type} : Outcome α → Bool
  | .exn _ _ => true
  | _ => false

/-- True when the fuel ran out while the computation was still recursing. -/
def Outcome.isFuelOut {α : Type} : Outcome α → Bool
  | .fuelOut _ => true
  | _ => false

/-- The returned pair of a `handle_exception` computation, when it
returned normally. -/
def Outcome.pairOf : Outcome (Response × Value) → Option (Response × Value)
  | .ok p _ => some p
  | _ => none

/-- Sequencing of pipeline computations: continue on a normal result,
propagate an escaping exception or exhausted fuel. -/
def Outcome.mapOk {α β : Type} (o : Outcome α)
    (f : α → List TraceItem → Outcome β) : Outcome β :=
  match o with
  | .ok a tr => f a tr
  | .exn e tr => .exn e tr
  | .fuelOut tr => .fuelOut tr

/-- Oracle environment abstracting the external collaborators: for each
dispatch point, what the dispatcher trigger produced (its aggregate
`first()` value) or which exception it let escape.  `dispatchTrigger`
additionally yields the `controller_class` entry that listeners stored
into the event params (`none` models an absent key).  `renderD n` is the
outcome of the n-th dispatcher-driven RENDER_VIEW trigger (`none` =
success), `renderF n` the outcome of the n-th direct fallback-render
call, `excTrigger n` the outcome of the n-th EXCEPTION trigger. -/
structure Env where
  routeTrigger : Except Exc Value
  dispatchTrigger : Except Exc (Value × Option Value)
  renderD : Nat → Option Exc
  renderF : Nat → Option Exc
  excTrigger : Nat → Except Exc Value
  completeTrigger : Option Exc

/-- Embedding of `Http.handle_exception(last_exception=None, **kwargs)`
(applications.py lines 194-210).  `exc` is `kwargs['exception']`.
Faithful points: the EXCEPTION trigger fires first; the Response is built
from the exception's `status_code` attribute (AttributeError if absent);
when `last_exception` is set the fallback render is invoked OUTSIDE any
try, so its exception propagates; the dispatcher-driven render is inside
`try`, and on failure the handler recurses with the new exception, the
recursive call's return value being discarded. -/
def handleException (env : Env) : Nat → Option Exc → Exc → List TraceItem →
    Outcome (Response × Value)
  | 0, _, _, tr => .fuelOut tr
  | fuel+1, lastExc, exc, tr =>
    let tr1 := tr ++ [TraceItem.trigger EvName.EXCEPTION (some exc)]
    match env.excTrigger (countTrig EvName.EXCEPTION tr) with
    | .error e => .exn e tr1
    | .ok firstV =>
      match exc.status_code with
      | none => .exn attrErrorStatusCode tr1
      | some s =>
        match lastExc with
        | none =>
          match env.renderD (countTrig EvName.RENDER_VIEW tr1) with
          | none => .ok (⟨s⟩, firstV) (tr1 ++ [TraceItem.trigger EvName.RENDER_VIEW none])
          | some e =>
            (handleException env fuel (some e) e
                (tr1 ++ [TraceItem.trigger EvName.RENDER_VIEW none])).mapOk
              fun _ tr4 => .ok (⟨s⟩, firstV) tr4
        | some _ =>
          let tr2 := tr1 ++ [TraceItem.fallbackRender]
          match env.renderF (countFb tr1) with
          | some e => .exn e tr2
          | none =>
            match env.renderD (countTrig EvName.RENDER_VIEW tr2) with
            | none => .ok (⟨s⟩, firstV) (tr2 ++ [TraceItem.trigger EvName.RENDER_VIEW none])
            | some e =>
              (handleException env fuel (some e) e
                  (tr2 ++ [TraceItem.trigger EvName.RENDER_VIEW none])).mapOk
                fun _ tr4 => .ok (⟨s⟩, firstV) tr4

/-- The local variables of `Http.run`; `none` models a Python local that
was never assigned on the path taken (reading it raises
UnboundLocalError). -/
structure Locals where
  route_match : Value
  response : Option Response
  view_model : Option Value
deriving DecidableEq, Repr

/-- Route-matching stage of `Http.run` (lines 158-166): trigger
ROUTE_MATCH; `route_match = route_result.first()`; `except
ApplicationError` sets `route_match = None` and enters `handle_exception`;
any other exception propagates. -/
def routeStage (env : Env) (fuel : Nat) (tr : List TraceItem) : Outcome Locals :=
  let tr1 := tr ++ [TraceItem.trigger EvName.ROUTE_MATCH none]
  match env.routeTrigger with
  | .ok v => .ok ⟨v, none, none⟩ tr1
  | .error e =>
    if e.app then
      (handleException env fuel none e tr1).mapOk
        fun rv tr2 => .ok ⟨Value.vnone, some rv.1, some rv.2⟩ tr2
    else .exn e tr1

/-- Body of the dispatch `try` block after the trigger (lines 169-178):
the trigger itself may raise; then `dispatch_event.params
['controller_class']` (KeyError if no listener stored it), then its
`.response` attribute, then `dispatch_result.first()`. -/
def dispatchBody (env : Env) : Except Exc (Response × Value) :=
  match env.dispatchTrigger with
  | .error e => .error e
  | .ok (_, none) => .error keyErrorControllerClass
  | .ok (firstV, some cc) =>
    match cc.responseAttr with
    | .error e => .error e
    | .ok r => .ok (r, firstV)

/-- Dispatch stage of `Http.run` (lines 167-180): only entered when
`route_match` is truthy; `except ApplicationError` enters
`handle_exception`; any other exception (e.g. the `controller_class`
KeyError) propagates out of `run`. -/
def dispatchStage (env : Env) (fuel : Nat) (l : Locals) (tr : List TraceItem) :
    Outcome Locals :=
  if l.route_match.truthy then
    let tr1 := tr ++ [TraceItem.trigger EvName.DISPATCH_EXECUTE none]
    match dispatchBody env with
    | .ok (r, vm) => .ok { l with response := some r, view_model := some vm } tr1
    | .error e =>
      if e.app then
        (handleException env fuel none e tr1).mapOk
          fun rv tr2 => .ok { l with response := some rv.1, view_model := some rv.2 } tr2
      else .exn e tr1
  else .ok l tr

/-- Shared continuation of the render stage when the render attempt raised
`e` : `except Exception` catches it and enters `handle_exception`, whose
own escaping failures propagate out of `run`. -/
def afterRenderFail (env : Env) (fuel : Nat) (e : Exc) (l : Locals)
    (tr : List TraceItem) : Outcome Locals :=
  (handleException env fuel none e tr).mapOk
    fun rv tr2 => .ok { l with response := some rv.1, view_model := some rv.2 } tr2

/-- Render stage of `Http.run` (lines 181-185).  `if not
isinstance(view_model, Response)` reads `view_model` OUTSIDE any try: if
it was never assigned (soft not-found path) the UnboundLocalError
propagates.  Inside the try, the arguments of `self.render(...)` are
evaluated first (reading an unbound `response` raises, caught by `except
Exception`), then RENDER_VIEW is triggered. -/
def renderStage (env : Env) (fuel : Nat) (l : Locals) (tr : List TraceItem) :
    Outcome Locals :=
  match l.view_model with
  | none => .exn unboundViewModel tr
  | some vm =>
    if vm.isResponse then .ok l tr
    else
      match l.response with
      | none => afterRenderFail env fuel unboundResponse l tr
      | some _ =>
        let tr1 := tr ++ [TraceItem.trigger EvName.RENDER_VIEW none]
        match env.renderD (countTrig EvName.RENDER_VIEW tr) with
        | none => .ok l tr1
        | some e => afterRenderFail env fuel e l tr1

/-- Final stage of `Http.run` (lines 186-189): trigger COMPLETE
unconditionally on every path that reaches it, then return
`response(start_response)` (reading an unbound `response` raises). -/
def completeStage (env : Env) (l : Locals) (tr : List TraceItem) : Outcome Response :=
  let tr1 := tr ++ [TraceItem.trigger EvName.COMPLETE none]
  match env.completeTrigger with
  | some e => .exn e tr1
  | none =>
    match l.response with
    | none => .exn unboundResponse tr1
    | some r => .ok r tr1

/-- Embedding of `Http.run(environ, start_response)` (applications.py
lines 153-189).  Request construction and the container registrations are
side-effect free in the model; resolution of the router is folded into the
route-trigger oracle. -/
def run (env : Env) (fuel : Nat) : Outcome Response :=
  (((routeStage env fuel []).mapOk
      (dispatchStage env fuel)).mapOk
        (renderStage env fuel)).mapOk
          (completeStage env)

/-- Configuration values: a scalar setting or a nested mapping, modelling
the Python dicts handled by the config machinery. -/
inductive CVal where
  | leaf (n : Nat)
  | dict (entries : List (String × CVal))
deriving Repr

/-- First value bound to a key in an association list (Python dict
lookup; keys of a Python dict are unique). -/
def lookupKey (k : String) : List (String × CVal) → Option CVal
  | [] => none
  | (k2, v) :: rest => if k = k2 then some v else lookupKey k rest

/-- Python `result[k] = v`: replace in place when the key exists,
otherwise append (insertion order). -/
def setEntry : List (String × CVal) → String → CVal → List (String × CVal)
  | [], k, v => [(k, v)]
  | (k2, v2) :: rest, k, v =>
    if k = k2 then (k, v) :: rest else (k2, v2) :: setEntry rest k v

mutual

/-- Modelled from the spec: `watson.common.datastructures.dict_deep_update`
(not under src/), the deep merge used by the `Base.config` setter — caller
keys override defaults at every nesting level, default keys absent from
the caller config are preserved, a non-dict override replaces the default
wholesale. -/
def dict_deep_update : CVal → CVal → CVal
  | .dict as, .dict bs => .dict (applyUpdates as bs)
  | _, b => b

/-- Fold the override entries left to right into the defaults. -/
def applyUpdates : List (String × CVal) → List (String × CVal) →
    List (String × CVal)
  | as, [] => as
  | as, (k, v2) :: rest =>
    applyUpdates (setEntry as k (mergeVal (lookupKey k as) v2)) rest

/-- Merge one override value over the existing value at the same key:
recurse when both are dicts, otherwise the override wins. -/
def mergeVal : Option CVal → CVal → CVal
  | some (.dict xs), .dict ys => .dict (applyUpdates xs ys)
  | _, v2 => v2

end

/-- Embedding of the `Base.config` setter (applications.py lines 39-59),
mapping case: `conf = config or {}` then `dict_deep_update(defaults,
conf)`.  The framework defaults (`module_to_dict(DefaultConfig, '__')`)
are abstracted as an entry list. -/
def setConfig (defaults : List (String × CVal))
    (config : Option (List (String × CVal))) : CVal :=
  let conf : List (String × CVal) :=
    match config with
    | none => []
    | some c => c
  dict_deep_update (.dict defaults) (.dict conf)

/-- Keys of an association list. -/
def keysOf (l : List (String × CVal)) : List String := l.map Prod.fst

/-- One listener entry of `config['events']`: the callable identifier
(`callback_priority_pair[0]`) plus the optional `priority` and
`once_only` attributes probed by the try/except blocks of
`Base.register_events`. -/
structure ListenerEntry where
  callableId : String
  priority : Option Nat
  once_only : Option Bool
deriving DecidableEq, Repr

/-- One `dispatcher.add(event, callable, priority, once_only)` call made
by `Base.register_events`. -/
structure Registration where
  event : String
  callback : String
  priority : Nat
  once_only : Bool
deriving DecidableEq, Repr

/-- The registration built for one listener entry: missing `priority`
falls back to 1, missing `once_only` falls back to `False` (the bare
`except:` blocks of lines 117-124); the callable identifier is resolved
through the container. -/
def mkReg (resolve : String → String) (ev : String) (e : ListenerEntry) :
    Registration :=
  { event := ev
    callback := resolve e.callableId
    priority :=
      match e.priority with
      | some p => p
      | none => 1
    once_only :=
      match e.once_only with
      | some b => b
      | none => false }

/-- Embedding of `Base.register_events` (applications.py lines 110-129):
for every event name in `config['events']`, for every listener entry, add
a registration to the dispatcher.  Container resolution is abstracted as
`resolve`. -/
def register_events (resolve : String → String) :
    List (String × List ListenerEntry) → List Registration
  | [] => []
  | (ev, listeners) :: rest =>
    listeners.map (mkReg resolve ev) ++ register_events resolve rest

theorem countTrig_append (ev : EvName) (a b : List TraceItem) :
    countTrig ev (a ++ b) = countTrig ev a + countTrig ev b := by
  induction a with
  | nil => simp [countTrig]
  | cons it rest ih =>
    cases it with
    | trigger e p => simp [countTrig, ih]; omega
    | fallbackRender => simp [countTrig, ih]

theorem countFb_append (a b : List TraceItem) :
    countFb (a ++ b) = countFb a + countFb b := by
  induction a with
  | nil => simp [countFb]
  | cons it rest ih =>
    cases it with
    | trigger e p => simp [countFb, ih]
    | fallbackRender => simp [countFb, ih]; omega

theorem Outcome.trace_ok {α : Type} (a : α) (tr : List TraceItem) :
    (Outcome.ok a tr).trace = tr := rfl

theorem Outcome.trace_exn {α : Type} (e : Exc) (tr : List TraceItem) :
    (Outcome.exn (α := α) e tr).trace = tr := rfl

theorem Outcome.trace_fuelOut {α : Type} (tr : List TraceItem) :
    (Outcome.fuelOut (α := α) tr).trace = tr := rfl

theorem Outcome.trace_mapOk_ok {α β : Type} (o : Outcome α) (h : α → β) :
    (o.mapOk fun a tr => Outcome.ok (h a) tr).trace = o.trace := by
  cases o <;> rfl

theorem Outcome.trace_mapOk_const {α β : Type} (o : Outcome α) (b : β) :
    (o.mapOk fun _ tr => Outcome.ok b tr).trace = o.trace := by
  cases o <;> rfl

/-- Every trace item appended by `handleException` is an EXCEPTION
trigger, a RENDER_VIEW trigger, or a fallback-render call, so the count
of any other event is preserved. -/
theorem handleException_count (env : Env) (ev : EvName)
    (hE : ev ≠ EvName.EXCEPTION) (hR : ev ≠ EvName.RENDER_VIEW) :
    ∀ (fuel : Nat) (lastExc : Option Exc) (exc : Exc) (tr : List TraceItem),
      countTrig ev ((handleException env fuel lastExc exc tr).trace) =
        countTrig ev tr := by
  have hE2 : (EvName.EXCEPTION = ev) = False := by simp [eq_comm]; exact hE
  have hR2 : (EvName.RENDER_VIEW = ev) = False := by simp [eq_comm]; exact hR
  intro fuel
  induction fuel with
  | zero => intro lastExc exc tr; simp [handleException, Outcome.trace_fuelOut]
  | succ f ih =>
    intro lastExc exc tr
    simp only [handleException]
    repeat' split
    all_goals
      simp [Outcome.trace_ok, Outcome.trace_exn, Outcome.trace_fuelOut,
        Outcome.trace_mapOk_const, ih, countTrig_append,
        countTrig, countFb, hE2, hR2]

/-- The handler only ever appends to the trace it was given. -/
theorem handleException_ext (env : Env) :
    ∀ (fuel : Nat) (lastExc : Option Exc) (exc : Exc) (tr : List TraceItem),
      ∃ ext, (handleException env fuel lastExc exc tr).trace = tr ++ ext := by
  intro fuel
  induction fuel with
  | zero =>
    intro lastExc exc tr
    exact ⟨[], by simp [handleException, Outcome.trace_fuelOut]⟩
  | succ f ih =>
    intro lastExc exc tr
    simp only [handleException]
    repeat' split
    all_goals
      simp only [Outcome.trace_ok, Outcome.trace_exn, Outcome.trace_fuelOut,
        Outcome.trace_mapOk_const]
    all_goals
      first
      | exact ⟨_, rfl⟩
      | (simp only [List.append_assoc]; exact ⟨_, rfl⟩)
      | (obtain ⟨ext, hext⟩ := ih _ _ _
         rw [hext]
         first
         | exact ⟨_, rfl⟩
         | (simp only [List.append_assoc]; exact ⟨_, rfl⟩))

theorem routeStage_count (env : Env) (ev : EvName) (fuel : Nat) (tr : List TraceItem)
    (hE : ev ≠ EvName.EXCEPTION) (hR : ev ≠ EvName.RENDER_VIEW)
    (hM : ev ≠ EvName.ROUTE_MATCH) :
    countTrig ev ((routeStage env fuel tr).trace) = countTrig ev tr := by
  have hE2 : (EvName.EXCEPTION = ev) = False := by simp [eq_comm]; exact hE
  have hM2 : (EvName.ROUTE_MATCH = ev) = False := by simp [eq_comm]; exact hM
  simp only [routeStage]
  repeat' split
  all_goals
    simp [Outcome.trace_ok, Outcome.trace_exn, Outcome.trace_fuelOut,
      Outcome.trace_mapOk_ok, handleException_count env ev hE hR,
      countTrig_append, countTrig, hE2, hM2]

theorem dispatchStage_count (env : Env) (ev : EvName) (fuel : Nat) (l : Locals)
    (tr : List TraceItem)
    (hE : ev ≠ EvName.EXCEPTION) (hR : ev ≠ EvName.RENDER_VIEW)
    (hD : ev ≠ EvName.DISPATCH_EXECUTE) :
    countTrig ev ((dispatchStage env fuel l tr).trace) = countTrig ev tr := by
  have hE2 : (EvName.EXCEPTION = ev) = False := by simp [eq_comm]; exact hE
  have hD2 : (EvName.DISPATCH_EXECUTE = ev) = False := by simp [eq_comm]; exact hD
  simp only [dispatchStage]
  repeat' split
  all_goals
    simp [Outcome.trace_ok, Outcome.trace_exn, Outcome.trace_fuelOut,
      Outcome.trace_mapOk_ok, handleException_count env ev hE hR,
      countTrig_append, countTrig, hE2, hD2]

theorem renderStage_count (env : Env) (ev : EvName) (fuel : Nat) (l : Locals)
    (tr : List TraceItem)
    (hE : ev ≠ EvName.EXCEPTION) (hR : ev ≠ EvName.RENDER_VIEW) :
    countTrig ev ((renderStage env fuel l tr).trace) = countTrig ev tr := by
  have hE2 : (EvName.EXCEPTION = ev) = False := by simp [eq_comm]; exact hE
  have hR2 : (EvName.RENDER_VIEW = ev) = False := by simp [eq_comm]; exact hR
  simp only [renderStage, afterRenderFail]
  repeat' split
  all_goals
    simp [Outcome.trace_ok, Outcome.trace_exn, Outcome.trace_fuelOut,
      Outcome.trace_mapOk_ok, handleException_count env ev hE hR,
      countTrig_append, countTrig, hE2, hR2]

theorem completeStage_count (env : Env) (ev : EvName) (l : Locals)
    (tr : List TraceItem) (hC : ev ≠ EvName.COMPLETE) :
    countTrig ev ((completeStage env l tr).trace) = countTrig ev tr := by
  have hC2 : (EvName.COMPLETE = ev) = False := by simp [eq_comm]; exact hC
  simp only [completeStage]
  repeat' split
  all_goals
    simp [Outcome.trace_ok, Outcome.trace_exn, countTrig_append, countTrig, hC2]

theorem completeStage_complete (env : Env) (l : Locals) (tr : List TraceItem) :
    countTrig EvName.COMPLETE ((completeStage env l tr).trace) =
      countTrig EvName.COMPLETE tr + 1 := by
  simp only [completeStage]
  repeat' split
  all_goals
    simp [Outcome.trace_ok, Outcome.trace_exn, countTrig_append, countTrig]

theorem dispatchStage_falsy (env : Env) (fuel : Nat) (l : Locals)
    (tr : List TraceItem) (h : l.route_match.truthy = false) :
    dispatchStage env fuel l tr = Outcome.ok l tr := by
  simp [dispatchStage, h]

theorem routeStage_ok_falsy (env : Env) (fuel : Nat) (tr : List TraceItem)
    (l : Locals) (tr1 : List TraceItem)
    (hroute : ∀ v, env.routeTrigger = Except.ok v → v.truthy = false)
    (h : routeStage env fuel tr = Outcome.ok l tr1) :
    l.route_match.truthy = false := by
  cases hr : env.routeTrigger with
  | ok v =>
    simp only [routeStage, hr] at h
    obtain ⟨hl, _⟩ := (Outcome.ok.injEq _ _ _ _).mp h
    rw [← hl]
    exact hroute v hr
  | error e =>
    simp only [routeStage, hr] at h
    by_cases ha : e.app
    · rw [if_pos ha] at h
      cases hh : handleException env fuel none e
          (tr ++ [TraceItem.trigger EvName.ROUTE_MATCH none]) with
      | ok p tr2 =>
        rw [hh] at h
        simp only [Outcome.mapOk] at h
        obtain ⟨hl, _⟩ := (Outcome.ok.injEq _ _ _ _).mp h
        rw [← hl]
        rfl
      | exn e2 tr2 => rw [hh] at h; simp [Outcome.mapOk] at h
      | fuelOut tr2 => rw [hh] at h; simp [Outcome.mapOk] at h
    · rw [if_neg ha] at h
      simp at h

/-- C3 (amended claim): every invocation of `Http.run` that returns a
Response triggers the COMPLETE event exactly once; an invocation aborted
by an escaping exception may not reach the COMPLETE trigger at all. -/
theorem c3_complete_once_when_response (env : Env) (fuel : Nat) (r : Response)
    (tr : List TraceItem) (h : run env fuel = Outcome.ok r tr) :
    countTrig EvName.COMPLETE tr = 1 := by
  have d1 := routeStage_count env EvName.COMPLETE fuel []
    (by decide) (by decide) (by decide)
  simp only [run] at h
  cases o1 : routeStage env fuel [] with
  | exn e tr1 => rw [o1] at h; simp [Outcome.mapOk] at h
  | fuelOut tr1 => rw [o1] at h; simp [Outcome.mapOk] at h
  | ok l1 tr1 =>
    rw [o1] at h
    simp only [Outcome.mapOk] at h
    rw [o1] at d1
    simp only [Outcome.trace_ok, countTrig] at d1
    cases o2 : dispatchStage env fuel l1 tr1 with
    | exn e tr2 => rw [o2] at h; simp [Outcome.mapOk] at h
    | fuelOut tr2 => rw [o2] at h; simp [Outcome.mapOk] at h
    | ok l2 tr2 =>
      rw [o2] at h
      simp only [Outcome.mapOk] at h
      have d2 := dispatchStage_count env EvName.COMPLETE fuel l1 tr1
        (by decide) (by decide) (by decide)
      rw [o2] at d2
      simp only [Outcome.trace_ok] at d2
      cases o3 : renderStage env fuel l2 tr2 with
      | exn e tr3 => rw [o3] at h; simp [Outcome.mapOk] at h
      | fuelOut tr3 => rw [o3] at h; simp [Outcome.mapOk] at h
      | ok l3 tr3 =>
        rw [o3] at h
        simp only [Outcome.mapOk] at h
        have d3 := renderStage_count env EvName.COMPLETE fuel l2 tr2
          (by decide) (by decide)
        rw [o3] at d3
        simp only [Outcome.trace_ok] at d3
        have d4 := completeStage_complete env l3 tr3
        rw [h] at d4
        simp only [Outcome.trace_ok] at d4
        omega

/-- C5: whenever the route-matching stage does not yield a truthy route
match (soft not-found, ApplicationError, or any other escaping failure),
the DISPATCH_EXECUTE event is never triggered during `Http.run`. -/
theorem c5_no_route_no_dispatch (env : Env) (fuel : Nat)
    (hroute : ∀ v, env.routeTrigger = Except.ok v → v.truthy = false) :
    countTrig EvName.DISPATCH_EXECUTE ((run env fuel).trace) = 0 := by
  have h1 := routeStage_count env EvName.DISPATCH_EXECUTE fuel []
    (by decide) (by decide) (by decide)
  cases o1 : routeStage env fuel [] with
  | exn e tr1 =>
    rw [o1] at h1
    simp only [Outcome.trace_exn, countTrig] at h1
    simp only [run]
    rw [o1]
    simpa [Outcome.mapOk, Outcome.trace_exn] using h1
  | fuelOut tr1 =>
    rw [o1] at h1
    simp only [Outcome.trace_fuelOut, countTrig] at h1
    simp only [run]
    rw [o1]
    simpa [Outcome.mapOk, Outcome.trace_fuelOut] using h1
  | ok l1 tr1 =>
    rw [o1] at h1
    simp only [Outcome.trace_ok, countTrig] at h1
    have hfal := routeStage_ok_falsy env fuel [] l1 tr1 hroute o1
    have hds := dispatchStage_falsy env fuel l1 tr1 hfal
    simp only [run]
    rw [o1]
    simp only [Outcome.mapOk]
    rw [hds]
    simp only [Outcome.mapOk]
    have h3 := renderStage_count env EvName.DISPATCH_EXECUTE fuel l1 tr1
      (by decide) (by decide)
    cases o3 : renderStage env fuel l1 tr1 with
    | exn e tr3 =>
      rw [o3] at h3
      simp only [Outcome.trace_exn] at h3
      simp only [Outcome.mapOk, Outcome.trace_exn]
      omega
    | fuelOut tr3 =>
      rw [o3] at h3
      simp only [Outcome.trace_fuelOut] at h3
      simp only [Outcome.mapOk, Outcome.trace_fuelOut]
      omega
    | ok l3 tr3 =>
      rw [o3] at h3
      simp only [Outcome.trace_ok] at h3
      simp only [Outcome.mapOk]
      rw [completeStage_count env EvName.DISPATCH_EXECUTE l3 tr3 (by decide)]
      omega

/-- C9: for every run in which the route matched and the DISPATCH_EXECUTE
trigger completes without raising but no listener stored a
`controller_class` key into the event params, the unguarded
`params['controller_class']` lookup raises a KeyError that the dispatch
stage's `except ApplicationError` clause does not catch, so it propagates
out of `run`. -/
theorem c9_controller_class_keyerror (env : Env) (fuel : Nat) (v w : Value)
    (hr : env.routeTrigger = Except.ok v) (hv : v.truthy = true)
    (hd : env.dispatchTrigger = Except.ok (w, none)) :
    run env fuel = Outcome.exn keyErrorControllerClass
      [TraceItem.trigger EvName.ROUTE_MATCH none,
       TraceItem.trigger EvName.DISPATCH_EXECUTE none] := by
  simp [run, routeStage, hr, Outcome.mapOk, dispatchStage, hv, dispatchBody,
    hd, keyErrorControllerClass]

/-- Environment for the C9 witness: a route matches, dispatch listeners
run fine but never store `controller_class`. -/
def envC9 : Env :=
  { routeTrigger := .ok (Value.vobj "route_match" true)
    dispatchTrigger := .ok (Value.vnone, none)
    renderD := fun _ => none
    renderF := fun _ => none
    excTrigger := fun _ => .ok Value.vnone
    completeTrigger := none }

/-- Witness for C9 at a concrete environment. -/
theorem c9_witness :
    (envC9.routeTrigger = Except.ok (Value.vobj "route_match" true)
      ∧ (Value.vobj "route_match" true).truthy = true
      ∧ envC9.dispatchTrigger = Except.ok (Value.vnone, none))
    ∧ run envC9 3 = Outcome.exn keyErrorControllerClass
        [TraceItem.trigger EvName.ROUTE_MATCH none,
         TraceItem.trigger EvName.DISPATCH_EXECUTE none] :=
  ⟨⟨rfl, rfl, rfl⟩, c9_controller_class_keyerror envC9 3 _ _ rfl rfl rfl⟩

/-- C4 (amended claim): when the ROUTE_MATCH trigger completes without
raising and its first truthy result is falsy (a soft not-found), dispatch
is indeed skipped, but `run` does not proceed to render: neither
`view_model` nor `response` was ever assigned on this path, so evaluating
`view_model` for the `isinstance(view_model, Response)` check raises an
UnboundLocalError that escapes `run` before any RENDER_VIEW or COMPLETE
trigger. -/
theorem c4_soft_not_found_unbound (env : Env) (fuel : Nat) (v : Value)
    (hr : env.routeTrigger = Except.ok v) (hv : v.truthy = false) :
    run env fuel = Outcome.exn unboundViewModel
      [TraceItem.trigger EvName.ROUTE_MATCH none] := by
  simp [run, routeStage, hr, Outcome.mapOk, dispatchStage, hv, renderStage]

/-- Environment for C4: the router listeners return a falsy first result
and nothing raises anywhere. -/
def envC4 : Env :=
  { routeTrigger := .ok Value.vnone
    dispatchTrigger := .ok (Value.vnone, none)
    renderD := fun _ => none
    renderF := fun _ => none
    excTrigger := fun _ => .ok Value.vnone
    completeTrigger := none }

/-- Counterexample for C4 as stated: on a soft not-found, `run` does not
attempt render on the route-match stage's value — it raises
UnboundLocalError (no RENDER_VIEW trigger appears in the trace) and the
exception escapes `run`. -/
theorem c4_counterexample :
    run envC4 3 = Outcome.exn unboundViewModel
        [TraceItem.trigger EvName.ROUTE_MATCH none]
      ∧ countTrig EvName.RENDER_VIEW
          [TraceItem.trigger EvName.ROUTE_MATCH none] = 0 := by
  constructor
  · decide
  · decide

/-- Witness for the amended C4 at a concrete environment. -/
theorem c4_witness :
    (envC4.routeTrigger = Except.ok Value.vnone ∧ Value.vnone.truthy = false)
    ∧ run envC4 5 = Outcome.exn unboundViewModel
        [TraceItem.trigger EvName.ROUTE_MATCH none] :=
  ⟨⟨rfl, rfl⟩, c4_soft_not_found_unbound envC4 5 Value.vnone rfl rfl⟩

/-- C1 (amended claim): `run` contains only the failures its handlers are
written for — an ApplicationError raised during route matching is caught
and, provided the exception-handling renders and the COMPLETE trigger
succeed, `run` still returns a Response built from the error's status
code; but a non-ApplicationError raised during route matching is not
caught by any handler and escapes `run`. -/
theorem c1_exception_containment :
    (∀ (env : Env) (fuel : Nat) (e : Exc),
        env.routeTrigger = Except.error e → e.app = false →
        run env fuel = Outcome.exn e [TraceItem.trigger EvName.ROUTE_MATCH none])
    ∧ (∀ (env : Env) (fuel : Nat) (e : Exc) (s : Nat) (v : Value),
        env.routeTrigger = Except.error e → e.app = true →
        e.status_code = some s →
        env.excTrigger 0 = Except.ok v → v.isResponse = false →
        env.renderD 0 = none → env.renderD 1 = none →
        env.completeTrigger = none →
        run env (fuel+1) = Outcome.ok ⟨s⟩
          [TraceItem.trigger EvName.ROUTE_MATCH none,
           TraceItem.trigger EvName.EXCEPTION (some e),
           TraceItem.trigger EvName.RENDER_VIEW none,
           TraceItem.trigger EvName.RENDER_VIEW none,
           TraceItem.trigger EvName.COMPLETE none]) := by
  constructor
  · intro env fuel e hr ha
    simp [run, routeStage, hr, ha, Outcome.mapOk]
  · intro env fuel e s v hr ha hs he hv hd0 hd1 hc
    simp [run, routeStage, hr, ha, Outcome.mapOk, handleException, countTrig,
      hs, he, hd0, hd1, dispatchStage, Value.truthy, renderStage, hv,
      countTrig_append, completeStage, hc]

/-- Environment refuting C1 as stated: a route listener raises a plain
(non-ApplicationError) exception. -/
def envC1 : Env :=
  { routeTrigger := .error ⟨false, none, "TypeError"⟩
    dispatchTrigger := .ok (Value.vnone, none)
    renderD := fun _ => none
    renderF := fun _ => none
    excTrigger := fun _ => .ok Value.vnone
    completeTrigger := none }

/-- Counterexample for C1 as stated: the route-matching failure escapes
`run`; no Response is returned to the transport responder. -/
theorem c1_counterexample :
    run envC1 3 = Outcome.exn ⟨false, none, "TypeError"⟩
      [TraceItem.trigger EvName.ROUTE_MATCH none] := by
  decide

/-- Environment for the C1 witness: route matching raises an
ApplicationError with status 404 and the error-handling pipeline works. -/
def envC1b : Env :=
  { routeTrigger := .error (appError 404)
    dispatchTrigger := .ok (Value.vnone, none)
    renderD := fun _ => none
    renderF := fun _ => none
    excTrigger := fun _ => .ok (Value.vobj "error_view" true)
    completeTrigger := none }

/-- Witness for the amended C1 at concrete environments. -/
theorem c1_witness :
    (envC1.routeTrigger = Except.error ⟨false, none, "TypeError"⟩
      ∧ (⟨false, none, "TypeError"⟩ : Exc).app = false
      ∧ run envC1 7 = Outcome.exn ⟨false, none, "TypeError"⟩
          [TraceItem.trigger EvName.ROUTE_MATCH none])
    ∧ (envC1b.routeTrigger = Except.error (appError 404)
      ∧ (appError 404).app = true
      ∧ (appError 404).status_code = some 404
      ∧ envC1b.excTrigger 0 = Except.ok (Value.vobj "error_view" true)
      ∧ (Value.vobj "error_view" true).isResponse = false
      ∧ envC1b.renderD 0 = none
      ∧ envC1b.renderD 1 = none
      ∧ envC1b.completeTrigger = none
      ∧ run envC1b 3 = Outcome.ok ⟨404⟩
          [TraceItem.trigger EvName.ROUTE_MATCH none,
           TraceItem.trigger EvName.EXCEPTION (some (appError 404)),
           TraceItem.trigger EvName.RENDER_VIEW none,
           TraceItem.trigger EvName.RENDER_VIEW none,
           TraceItem.trigger EvName.COMPLETE none]) :=
  ⟨⟨rfl, rfl, c1_exception_containment.1 envC1 7 ⟨false, none, "TypeError"⟩ rfl rfl⟩,
   rfl, rfl, rfl, rfl, rfl, rfl, rfl, rfl,
   c1_exception_containment.2 envC1b 2 (appError 404) 404
     (Value.vobj "error_view" true) rfl rfl rfl rfl rfl rfl rfl rfl⟩

/-- Environment for the C3 witness: route matching fails with a 404
ApplicationError and the error-handling pipeline succeeds, so `run`
returns a Response. -/
def envC3 : Env :=
  { routeTrigger := .error (appError 404)
    dispatchTrigger := .ok (Value.vnone, none)
    renderD := fun _ => none
    renderF := fun _ => none
    excTrigger := fun _ => .ok (Value.vobj "error_view" true)
    completeTrigger := none }

/-- Witness for the amended C3 at a concrete environment. -/
theorem c3_witness :
    run envC3 3 = Outcome.ok ⟨404⟩
        [TraceItem.trigger EvName.ROUTE_MATCH none,
         TraceItem.trigger EvName.EXCEPTION (some (appError 404)),
         TraceItem.trigger EvName.RENDER_VIEW none,
         TraceItem.trigger EvName.RENDER_VIEW none,
         TraceItem.trigger EvName.COMPLETE none]
      ∧ countTrig EvName.COMPLETE
          [TraceItem.trigger EvName.ROUTE_MATCH none,
           TraceItem.trigger EvName.EXCEPTION (some (appError 404)),
           TraceItem.trigger EvName.RENDER_VIEW none,
           TraceItem.trigger EvName.RENDER_VIEW none,
           TraceItem.trigger EvName.COMPLETE none] = 1 :=
  ⟨by decide, c3_complete_once_when_response envC3 3 ⟨404⟩ _ (by decide)⟩

/-- Environment refuting C3 as stated: a route listener raises a plain
exception, so `run` aborts before reaching the COMPLETE trigger. -/
def envC3x : Env :=
  { routeTrigger := .error ⟨false, none, "OSError"⟩
    dispatchTrigger := .ok (Value.vnone, none)
    renderD := fun _ => none
    renderF := fun _ => none
    excTrigger := fun _ => .ok Value.vnone
    completeTrigger := none }

/-- Counterexample for C3 as stated: an invocation of `run` on which the
COMPLETE event is triggered zero times, not exactly once. -/
theorem c3_counterexample :
    run envC3x 3 = Outcome.exn ⟨false, none, "OSError"⟩
        [TraceItem.trigger EvName.ROUTE_MATCH none]
      ∧ countTrig EvName.COMPLETE ((run envC3x 3).trace) = 0 := by
  refine ⟨?_, ?_⟩ <;> decide

/-- Environment for the C5 witness: the router produces a falsy first
result. -/
def envC5 : Env :=
  { routeTrigger := .ok Value.vnone
    dispatchTrigger := .ok (Value.vnone, none)
    renderD := fun _ => none
    renderF := fun _ => none
    excTrigger := fun _ => .ok Value.vnone
    completeTrigger := none }

/-- Witness for C5 at a concrete environment. -/
theorem c5_witness :
    countTrig EvName.DISPATCH_EXECUTE ((run envC5 4).trace) = 0 :=
  c5_no_route_no_dispatch envC5 4
    (fun v hv => by simp [envC5] at hv; subst hv; rfl)

theorem takeAppendLen {α : Type} (a b : List α) : (a ++ b).take a.length = a := by
  induction a with
  | nil => simp
  | cons x xs ih => simp [ih]

/-- The trace of a positive-fuel `handleException` call always starts
with the trace handed in followed by the EXCEPTION trigger that carries
the passed exception. -/
theorem handleException_starts (env : Env) (fuel : Nat) (lastExc : Option Exc)
    (exc : Exc) (tr : List TraceItem) :
    ∃ ext, (handleException env (fuel+1) lastExc exc tr).trace =
      (tr ++ [TraceItem.trigger EvName.EXCEPTION (some exc)]) ++ ext := by
  simp only [handleException]
  repeat' split
  all_goals
    simp only [Outcome.trace_ok, Outcome.trace_exn, Outcome.trace_fuelOut,
      Outcome.trace_mapOk_const]
  all_goals
    first
    | (refine ⟨[], ?_⟩; simp; done)
    | exact ⟨_, rfl⟩
    | (simp only [List.append_assoc]; exact ⟨_, rfl⟩)
    | (obtain ⟨ext, hext⟩ := handleException_ext env fuel _ _ _
       rw [hext]
       first
       | exact ⟨_, rfl⟩
       | (simp only [List.append_assoc]; exact ⟨_, rfl⟩))

theorem pairOf_mapOk_const (o : Outcome (Response × Value)) (b : Response × Value) :
    (o.mapOk fun _ tr => Outcome.ok b tr).pairOf = none
      ∨ (o.mapOk fun _ tr => Outcome.ok b tr).pairOf = some b := by
  cases o <;> simp [Outcome.mapOk, Outcome.pairOf]

/-- C6 (amended claim): a `handle_exception` call on an exception carrying
a status code fires the EXCEPTION event with the given exception first;
and whenever the call returns normally (its render attempts may instead
raise, in which case the escaping exception replaces the return), the
returned pair is exactly the Response built from the exception's status
code together with the first truthy EXCEPTION-listener result. -/
theorem c6_handle_exception_contract (env : Env) (fuel : Nat)
    (lastExc : Option Exc) (exc : Exc) (tr : List TraceItem) (s : Nat) (v : Value)
    (hs : exc.status_code = some s)
    (he : env.excTrigger (countTrig EvName.EXCEPTION tr) = Except.ok v) :
    ((handleException env (fuel+1) lastExc exc tr).trace).take (tr.length + 1) =
        tr ++ [TraceItem.trigger EvName.EXCEPTION (some exc)]
      ∧ ((handleException env (fuel+1) lastExc exc tr).pairOf = none
        ∨ (handleException env (fuel+1) lastExc exc tr).pairOf = some (⟨s⟩, v)) := by
  constructor
  · obtain ⟨ext, hext⟩ := handleException_starts env fuel lastExc exc tr
    rw [hext]
    have hl : (tr ++ [TraceItem.trigger EvName.EXCEPTION (some exc)]).length =
        tr.length + 1 := by simp
    rw [← hl]
    exact takeAppendLen _ _
  · simp only [handleException, he, hs]
    repeat' split
    all_goals
      first
      | exact pairOf_mapOk_const _ _
      | simp [Outcome.pairOf]

/-- Environment refuting C6 as stated: EXCEPTION listeners work, but the
dispatcher-driven render always raises an exception that carries no
status code, so the nested recursive call raises AttributeError and the
original `handle_exception` call never returns its pair. -/
def envC6 : Env :=
  { routeTrigger := .ok Value.vnone
    dispatchTrigger := .ok (Value.vnone, none)
    renderD := fun _ => some ⟨false, none, "TemplateError"⟩
    renderF := fun _ => none
    excTrigger := fun _ => .ok Value.vnone
    completeTrigger := none }

/-- Counterexample for C6 as stated: a call on an exception that does
carry a status code ends in an escaping exception instead of returning
the `(response, view_model)` pair. -/
theorem c6_counterexample :
    (handleException envC6 5 none (appError 500) []).isExn = true
      ∧ (handleException envC6 5 none (appError 500) []).pairOf = none := by
  refine ⟨?_, ?_⟩ <;> decide

/-- Environment for the C6 witness: everything succeeds. -/
def envC6w : Env :=
  { routeTrigger := .ok Value.vnone
    dispatchTrigger := .ok (Value.vnone, none)
    renderD := fun _ => none
    renderF := fun _ => none
    excTrigger := fun _ => .ok (Value.vobj "error_view" true)
    completeTrigger := none }

/-- Witness for the amended C6 at a concrete environment. -/
theorem c6_witness :
    ((appError 500).status_code = some 500
      ∧ envC6w.excTrigger (countTrig EvName.EXCEPTION []) =
          Except.ok (Value.vobj "error_view" true))
    ∧ ((handleException envC6w 3 none (appError 500) []).trace).take 1 =
        [TraceItem.trigger EvName.EXCEPTION (some (appError 500))]
    ∧ ((handleException envC6w 3 none (appError 500) []).pairOf = none
      ∨ (handleException envC6w 3 none (appError 500) []).pairOf =
          some (⟨500⟩, Value.vobj "error_view" true)) :=
  ⟨⟨rfl, rfl⟩,
   (c6_handle_exception_contract envC6w 2 none (appError 500) [] 500
     (Value.vobj "error_view" true) rfl rfl).1,
   (c6_handle_exception_contract envC6w 2 none (appError 500) [] 500
     (Value.vobj "error_view" true) rfl rfl).2⟩

/-- C10: a `handle_exception` call whose dispatcher-driven render fails
enters a nested recursive `handle_exception` call; the pair returned by
the outer call is the one built by the outer invocation itself — the
Response from the originally passed exception's status code and its own
EXCEPTION trigger's first result `v` — regardless of the value `v1`
produced (and discarded) by the nested call's EXCEPTION trigger. -/
theorem c10_nested_result_discarded (env : Env) (fuel : Nat) (exc e1 : Exc)
    (s s1 : Nat) (v v1 : Value) (tr : List TraceItem)
    (hs : exc.status_code = some s)
    (he0 : env.excTrigger (countTrig EvName.EXCEPTION tr) = Except.ok v)
    (hrd0 : env.renderD (countTrig EvName.RENDER_VIEW tr) = some e1)
    (hs1 : e1.status_code = some s1)
    (he1 : env.excTrigger (countTrig EvName.EXCEPTION tr + 1) = Except.ok v1)
    (hrf : env.renderF (countFb tr) = none)
    (hrd1 : env.renderD (countTrig EvName.RENDER_VIEW tr + 1) = none) :
    handleException env (fuel+2) none exc tr =
      Outcome.ok (⟨s⟩, v)
        (tr ++ [TraceItem.trigger EvName.EXCEPTION (some exc),
                TraceItem.trigger EvName.RENDER_VIEW none,
                TraceItem.trigger EvName.EXCEPTION (some e1),
                TraceItem.fallbackRender,
                TraceItem.trigger EvName.RENDER_VIEW none]) := by
  simp [handleException, countTrig_append, countTrig, countFb_append, countFb,
    hs, he0, hrd0, hs1, he1, hrf, hrd1, Outcome.mapOk]

/-- Environment for the C10 witness: the outer EXCEPTION trigger yields a
different view model than the nested one, the first dispatcher-driven
render fails, the retry succeeds. -/
def envC10 : Env :=
  { routeTrigger := .ok Value.vnone
    dispatchTrigger := .ok (Value.vnone, none)
    renderD := fun n => if n = 0 then some ⟨false, some 500, "RenderBoom"⟩ else none
    renderF := fun _ => none
    excTrigger := fun n =>
      if n = 0 then .ok (Value.vobj "outer_view" true)
      else .ok (Value.vobj "inner_view" true)
    completeTrigger := none }

/-- Witness for C10: the nested EXCEPTION trigger produced
`inner_view`, yet the outer call returns its own `outer_view` pair. -/
theorem c10_witness :
    ((appError 500).status_code = some 500
      ∧ envC10.excTrigger 0 = Except.ok (Value.vobj "outer_view" true)
      ∧ envC10.excTrigger 1 = Except.ok (Value.vobj "inner_view" true)
      ∧ envC10.renderD 0 = some ⟨false, some 500, "RenderBoom"⟩
      ∧ envC10.renderD 1 = none
      ∧ envC10.renderF 0 = none)
    ∧ handleException envC10 5 none (appError 500) [] =
        Outcome.ok (⟨500⟩, Value.vobj "outer_view" true)
          [TraceItem.trigger EvName.EXCEPTION (some (appError 500)),
           TraceItem.trigger EvName.RENDER_VIEW none,
           TraceItem.trigger EvName.EXCEPTION (some ⟨false, some 500, "RenderBoom"⟩),
           TraceItem.fallbackRender,
           TraceItem.trigger EvName.RENDER_VIEW none] :=
  ⟨⟨rfl, rfl, rfl, rfl, rfl, rfl⟩,
   c10_nested_result_discarded envC10 3 (appError 500)
     ⟨false, some 500, "RenderBoom"⟩ 500 500
     (Value.vobj "outer_view" true) (Value.vobj "inner_view" true) []
     rfl rfl rfl rfl rfl rfl rfl⟩

/-- The render exception used in the persistent-failure environment: it
carries a status code, so the recursion never stops on AttributeError. -/
def persistBomb : Exc := ⟨false, some 500, "RenderBoom"⟩

/-- Environment on which `handle_exception` recurses forever: the
dispatcher-driven render fails on every attempt while the fallback render
and the EXCEPTION listeners always succeed. -/
def envPersist : Env :=
  { routeTrigger := .ok Value.vnone
    dispatchTrigger := .ok (Value.vnone, none)
    renderD := fun _ => some persistBomb
    renderF := fun _ => none
    excTrigger := fun _ => .ok Value.vnone
    completeTrigger := none }

theorem envPersist_exc (n : Nat) :
    envPersist.excTrigger n = Except.ok Value.vnone := rfl

theorem envPersist_renderD (n : Nat) :
    envPersist.renderD n = some persistBomb := rfl

theorem envPersist_renderF (n : Nat) : envPersist.renderF n = none := rfl

theorem persistBomb_status : persistBomb.status_code = some 500 := rfl

/-- C2 (amended claim): `handle_exception` has no explicit recursion or
iteration cap.  (1) When both the dispatcher-driven render and the
fallback render keep failing, the handler does terminate after exactly
two EXCEPTION triggers — but by the unguarded fallback render's exception
propagating out of the handler (and out of `run`), not by a cap returning
a response.  (2) When the fallback render succeeds while the
dispatcher-driven render keeps failing, the recursion is unbounded: with
any fuel the computation is still recursing and has fired one EXCEPTION
trigger per fuel unit. -/
theorem c2_no_recursion_cap :
    (∀ (env : Env) (fuel : Nat) (exc e1 e2 : Exc) (s : Nat) (v0 v1 : Value),
        exc.status_code = some s →
        env.excTrigger 0 = Except.ok v0 → env.excTrigger 1 = Except.ok v1 →
        env.renderD 0 = some e1 → env.renderF 0 = some e2 →
        (handleException env (fuel+2) none exc []).isExn = true
          ∧ countTrig EvName.EXCEPTION
              ((handleException env (fuel+2) none exc []).trace) = 2)
    ∧ (∀ (fuel : Nat) (lastExc : Option Exc) (tr : List TraceItem),
        (handleException envPersist fuel lastExc persistBomb tr).isFuelOut = true
          ∧ countTrig EvName.EXCEPTION
              ((handleException envPersist fuel lastExc persistBomb tr).trace) =
            countTrig EvName.EXCEPTION tr + fuel) := by
  constructor
  · intro env fuel exc e1 e2 s v0 v1 hs he0 he1 hrd0 hrf0
    cases h1 : e1.status_code with
    | none =>
      refine ⟨?_, ?_⟩ <;>
        simp [handleException, countTrig_append, countTrig, countFb_append,
          countFb, hs, he0, he1, hrd0, h1, Outcome.mapOk, Outcome.isExn,
          Outcome.trace_exn]
    | some s1 =>
      refine ⟨?_, ?_⟩ <;>
        simp [handleException, countTrig_append, countTrig, countFb_append,
          countFb, hs, he0, he1, hrd0, h1, hrf0, Outcome.mapOk, Outcome.isExn,
          Outcome.trace_exn]
  · intro fuel
    induction fuel with
    | zero =>
      intro lastExc tr
      simp [handleException, Outcome.isFuelOut, Outcome.trace_fuelOut]
    | succ f ih =>
      intro lastExc tr
      cases lastExc with
      | none =>
        obtain ⟨hfo, hcount⟩ := ih (some persistBomb)
          (tr ++ [TraceItem.trigger EvName.EXCEPTION (some persistBomb),
                  TraceItem.trigger EvName.RENDER_VIEW none])
        cases hnest : handleException envPersist f (some persistBomb) persistBomb
            (tr ++ [TraceItem.trigger EvName.EXCEPTION (some persistBomb),
                    TraceItem.trigger EvName.RENDER_VIEW none]) with
        | ok p tr4 => rw [hnest] at hfo; simp [Outcome.isFuelOut] at hfo
        | exn e tr4 => rw [hnest] at hfo; simp [Outcome.isFuelOut] at hfo
        | fuelOut tr4 =>
          rw [hnest] at hcount
          simp only [Outcome.trace_fuelOut] at hcount
          refine ⟨?_, ?_⟩
          · simp [handleException, envPersist_exc, persistBomb_status,
              envPersist_renderD, envPersist_renderF, hnest, Outcome.mapOk,
              Outcome.isFuelOut]
          · simp only [handleException, envPersist_exc, persistBomb_status,
              envPersist_renderD, envPersist_renderF, List.append_assoc,
              List.cons_append, List.nil_append, hnest, Outcome.mapOk,
              Outcome.trace_fuelOut]
            rw [hcount]
            simp [countTrig_append, countTrig]
            omega
      | some l0 =>
        obtain ⟨hfo, hcount⟩ := ih (some persistBomb)
          (tr ++ [TraceItem.trigger EvName.EXCEPTION (some persistBomb),
                  TraceItem.fallbackRender,
                  TraceItem.trigger EvName.RENDER_VIEW none])
        cases hnest : handleException envPersist f (some persistBomb) persistBomb
            (tr ++ [TraceItem.trigger EvName.EXCEPTION (some persistBomb),
                    TraceItem.fallbackRender,
                    TraceItem.trigger EvName.RENDER_VIEW none]) with
        | ok p tr4 => rw [hnest] at hfo; simp [Outcome.isFuelOut] at hfo
        | exn e tr4 => rw [hnest] at hfo; simp [Outcome.isFuelOut] at hfo
        | fuelOut tr4 =>
          rw [hnest] at hcount
          simp only [Outcome.trace_fuelOut] at hcount
          refine ⟨?_, ?_⟩
          · simp [handleException, envPersist_exc, persistBomb_status,
              envPersist_renderD, envPersist_renderF, hnest, Outcome.mapOk,
              Outcome.isFuelOut]
          · simp only [handleException, envPersist_exc, persistBomb_status,
              envPersist_renderD, envPersist_renderF, List.append_assoc,
              List.cons_append, List.nil_append, hnest, Outcome.mapOk,
              Outcome.trace_fuelOut]
            rw [hcount]
            simp [countTrig_append, countTrig]
            omega

/-- Environment on which both render paths always fail. -/
def envBothFail : Env :=
  { routeTrigger := .ok Value.vnone
    dispatchTrigger := .ok (Value.vnone, none)
    renderD := fun _ => some ⟨false, some 500, "PrimaryBoom"⟩
    renderF := fun _ => some ⟨false, none, "FallbackBoom"⟩
    excTrigger := fun _ => .ok Value.vnone
    completeTrigger := none }

/-- Counterexample for C2 as stated: with both render paths failing the
handler never returns a pair — the fallback render's exception escapes
after exactly two EXCEPTION triggers (no cap produced a response); and no
explicit recursion cap exists at all: with the fallback succeeding and
the primary render persistently failing, fuel 30 is exhausted while still
recursing, after 30 EXCEPTION triggers. -/
theorem c2_counterexample :
    (handleException envBothFail 10 none (appError 500) []).isExn = true
      ∧ (handleException envBothFail 10 none (appError 500) []).pairOf = none
      ∧ countTrig EvName.EXCEPTION
          ((handleException envBothFail 10 none (appError 500) []).trace) = 2
      ∧ (handleException envPersist 30 none persistBomb []).isFuelOut = true
      ∧ countTrig EvName.EXCEPTION
          ((handleException envPersist 30 none persistBomb []).trace) = 30 := by
  refine ⟨?_, ?_, ?_, ?_, ?_⟩ <;> decide

/-- Witness for the amended C2 at a concrete environment. -/
theorem c2_witness :
    ((appError 404).status_code = some 404
      ∧ envBothFail.excTrigger 0 = Except.ok Value.vnone
      ∧ envBothFail.excTrigger 1 = Except.ok Value.vnone
      ∧ envBothFail.renderD 0 = some ⟨false, some 500, "PrimaryBoom"⟩
      ∧ envBothFail.renderF 0 = some ⟨false, none, "FallbackBoom"⟩)
    ∧ ((handleException envBothFail 6 none (appError 404) []).isExn = true
      ∧ countTrig EvName.EXCEPTION
          ((handleException envBothFail 6 none (appError 404) []).trace) = 2)
    ∧ ((handleException envPersist 7 none persistBomb []).isFuelOut = true
      ∧ countTrig EvName.EXCEPTION
          ((handleException envPersist 7 none persistBomb []).trace) =
        countTrig EvName.EXCEPTION ([] : List TraceItem) + 7) :=
  ⟨⟨rfl, rfl, rfl, rfl, rfl⟩,
   c2_no_recursion_cap.1 envBothFail 4 (appError 404)
     ⟨false, some 500, "PrimaryBoom"⟩ ⟨false, none, "FallbackBoom"⟩ 404
     Value.vnone Value.vnone rfl rfl rfl rfl rfl,
   c2_no_recursion_cap.2 7 none []⟩

theorem lookupKey_setEntry_self (as : List (String × CVal)) (k : String) (v : CVal) :
    lookupKey k (setEntry as k v) = some v := by
  induction as with
  | nil => simp [setEntry, lookupKey]
  | cons p rest ih =>
    obtain ⟨k2, v2⟩ := p
    by_cases h : k = k2
    · subst h; simp [setEntry, lookupKey]
    · simp [setEntry, lookupKey, h, ih]

theorem lookupKey_setEntry_ne (as : List (String × CVal)) (k k2 : String)
    (v : CVal) (h : k ≠ k2) :
    lookupKey k (setEntry as k2 v) = lookupKey k as := by
  induction as with
  | nil => simp [setEntry, lookupKey, h]
  | cons p rest ih =>
    obtain ⟨k3, v3⟩ := p
    by_cases h2 : k2 = k3
    · subst h2; simp [setEntry, lookupKey, h]
    · simp [setEntry, lookupKey, h2, ih]

theorem lookupKey_not_mem :
    ∀ (l : List (String × CVal)) (k : String), k ∉ keysOf l → lookupKey k l = none := by
  intro l
  induction l with
  | nil => intro k h; rfl
  | cons p rest ih =>
    intro k h
    obtain ⟨k2, v2⟩ := p
    simp only [keysOf, List.map_cons, List.mem_cons] at h
    push_neg at h
    simp [lookupKey, h.1, ih k (by simpa [keysOf] using h.2)]

/-- Lookup characterization of the deep merge, one nesting level at a
time: keys absent from the override keep the default value; keys present
in the override get the override value, merged recursively via `mergeVal`
when both sides are dicts. -/
theorem applyUpdates_lookup :
    ∀ (b a : List (String × CVal)) (k : String), (keysOf b).Nodup →
      lookupKey k (applyUpdates a b) =
        (match lookupKey k b with
         | none => lookupKey k a
         | some v2 => some (mergeVal (lookupKey k a) v2)) := by
  intro b
  induction b with
  | nil => intro a k h; simp [applyUpdates, lookupKey]
  | cons p rest ih =>
    intro a k h
    obtain ⟨k2, v2⟩ := p
    have hk2 : keysOf ((k2, v2) :: rest) = k2 :: keysOf rest := by simp [keysOf]
    rw [hk2] at h
    have hnotmem : k2 ∉ keysOf rest := (List.nodup_cons.mp h).1
    have hnodup : (keysOf rest).Nodup := (List.nodup_cons.mp h).2
    simp only [applyUpdates]
    rw [ih (setEntry a k2 (mergeVal (lookupKey k2 a) v2)) k hnodup]
    by_cases hk : k = k2
    · subst hk
      rw [lookupKey_not_mem rest k hnotmem]
      simp [lookupKey, lookupKey_setEntry_self]
    · rw [lookupKey_setEntry_ne a k k2 (mergeVal (lookupKey k2 a) v2) hk]
      cases hr : lookupKey k rest <;> simp [lookupKey, hk, hr]

/-- C7: the `Base.config` setter deep-merges the caller configuration
onto the framework defaults: the merged mapping is `applyUpdates` of the
defaults by the caller entries; at every key (hence, by the recursive
`mergeVal`, at every nesting level) a caller entry overrides the default
while default keys absent from the caller config are preserved; in
particular merging defaults `{a: {x: 1, y: 2}}` with override
`{a: {x: 9}}` yields `{a: {x: 9, y: 2}}`. -/
theorem c7_config_deep_merge :
    (∀ (defaults conf : List (String × CVal)),
        setConfig defaults (some conf) = CVal.dict (applyUpdates defaults conf))
    ∧ (∀ (defaults conf : List (String × CVal)) (k : String),
        (keysOf conf).Nodup →
        lookupKey k (applyUpdates defaults conf) =
          (match lookupKey k conf with
           | none => lookupKey k defaults
           | some v2 => some (mergeVal (lookupKey k defaults) v2)))
    ∧ setConfig [("a", CVal.dict [("x", CVal.leaf 1), ("y", CVal.leaf 2)])]
        (some [("a", CVal.dict [("x", CVal.leaf 9)])]) =
      CVal.dict [("a", CVal.dict [("x", CVal.leaf 9), ("y", CVal.leaf 2)])] := by
  refine ⟨?_, ?_, ?_⟩
  · intro defaults conf
    simp [setConfig, dict_deep_update]
  · intro defaults conf k h
    exact applyUpdates_lookup conf defaults k h
  · rfl

/-- Witness for C7 at the concrete defaults and override of the claim. -/
theorem c7_witness :
    (keysOf [("a", CVal.dict [("x", CVal.leaf 9)])]).Nodup
    ∧ lookupKey "a" (applyUpdates
        [("a", CVal.dict [("x", CVal.leaf 1), ("y", CVal.leaf 2)])]
        [("a", CVal.dict [("x", CVal.leaf 9)])]) =
      (match lookupKey "a" [("a", CVal.dict [("x", CVal.leaf 9)])] with
       | none => lookupKey "a"
           [("a", CVal.dict [("x", CVal.leaf 1), ("y", CVal.leaf 2)])]
       | some v2 => some (mergeVal (lookupKey "a"
           [("a", CVal.dict [("x", CVal.leaf 1), ("y", CVal.leaf 2)])]) v2)) :=
  ⟨by simp [keysOf], c7_config_deep_merge.2.1
    [("a", CVal.dict [("x", CVal.leaf 1), ("y", CVal.leaf 2)])]
    [("a", CVal.dict [("x", CVal.leaf 9)])] "a" (by simp [keysOf])⟩

/-- C8: every listener entry of `config['events']` is registered; entries
lacking an explicit priority or once-only field are registered with the
defaults (priority 1, `once_only = False`) — the bare `except:` fallback
never lets an error escape, which the total `mkReg` models — while
entries carrying those fields are registered with the given values. -/
theorem c8_register_events_defaults :
    (∀ (resolve : String → String) (ev : String) (e : ListenerEntry),
        (mkReg resolve ev e).priority = e.priority.getD 1
          ∧ (mkReg resolve ev e).once_only = e.once_only.getD false
          ∧ (mkReg resolve ev e).callback = resolve e.callableId)
    ∧ (∀ (resolve : String → String) (evs : List (String × List ListenerEntry))
        (ev : String) (ls : List ListenerEntry) (e : ListenerEntry),
        (ev, ls) ∈ evs → e ∈ ls →
        mkReg resolve ev e ∈ register_events resolve evs) := by
  constructor
  · intro resolve ev e
    refine ⟨?_, ?_, rfl⟩
    · cases hp : e.priority <;> simp [mkReg, hp]
    · cases ho : e.once_only <;> simp [mkReg, ho]
  · intro resolve evs
    induction evs with
    | nil => intro ev ls e h; simp at h
    | cons p rest ih =>
      intro ev ls e hmem hel
      obtain ⟨pe, pl⟩ := p
      simp only [register_events, List.mem_append]
      rcases List.mem_cons.mp hmem with h | h
      · left
        injection h with h1 h2
        subst h1
        subst h2
        exact List.mem_map_of_mem (mkReg resolve ev) hel
      · right
        exact ih ev ls e h hel

/-- Listener entry carrying no explicit priority or once-only field. -/
def entryBare : ListenerEntry := ⟨"app_listener", none, none⟩

/-- Listener entry carrying explicit priority and once-only values. -/
def entryFull : ListenerEntry := ⟨"late_listener", some 5, some true⟩

/-- Witness for C8 at a concrete events configuration. -/
theorem c8_witness :
    (("route_match", [entryBare, entryFull]) ∈
        [("route_match", [entryBare, entryFull])]
      ∧ entryBare ∈ [entryBare, entryFull]
      ∧ entryFull ∈ [entryBare, entryFull])
    ∧ (mkReg id "route_match" entryBare).priority = 1
    ∧ (mkReg id "route_match" entryBare).once_only = false
    ∧ (mkReg id "route_match" entryFull).priority = 5
    ∧ (mkReg id "route_match" entryFull).once_only = true
    ∧ mkReg id "route_match" entryBare ∈
        register_events id [("route_match", [entryBare, entryFull])]
    ∧ mkReg id "route_match" entryFull ∈
        register_events id [("route_match", [entryBare, entryFull])] :=
  ⟨⟨List.mem_singleton.mpr rfl, List.mem_cons_self _ _,
    List.mem_cons_of_mem _ (List.mem_singleton.mpr rfl)⟩,
   (c8_register_events_defaults.1 id "route_match" entryBare).1,
   (c8_register_events_defaults.1 id "route_match" entryBare).2.1,
   (c8_register_events_defaults.1 id "route_match" entryFull).1,
   (c8_register_events_defaults.1 id "route_match" entryFull).2.1,
   c8_register_events_defaults.2 id _ "route_match" _ entryBare
     (List.mem_singleton.mpr rfl) (List.mem_cons_self _ _),
   c8_register_events_defaults.2 id _ "route_match" _ entryFull
     (List.mem_singleton.mpr rfl)
     (List.mem_cons_of_mem _ (List.mem_singleton.mpr rfl))⟩

end WatsonFw
